import Mathlib

/-!
Shallow embedding of the web_scraper repository core
(`src/scraper.py`, `src/monitoring.py`, `src/utils.py`).

Conventions of the embedding:
* Wall-clock times, delays and response times are rationals (`ℚ`);
  every occurrence of `datetime.now()` / `time.time()` becomes an explicit
  `now` parameter, and `random.uniform(0, delay * 0.5)` becomes an explicit
  `jitter` function parameter.
* The HTTP transport (`requests.Session.get` followed by
  `raise_for_status`, resp. `aiohttp` `session.get`) is a pluggable
  capability: a function returning `Except String Response`, where
  `Except.error e` stands for a raised `RequestException` whose `str` is
  `e`.  For the sequential executor `raise_for_status` is part of the
  capability (a 4xx/5xx response surfaces as `Except.error`); the
  concurrent executor performs no `raise_for_status`, so there the
  transport returns `Except.ok` for every completed HTTP response,
  whatever its status.
* Python dictionaries keyed by strings or integers become association
  lists updated functionally; `d[k] = d.get(k, 0) + 1` is `bumpKey`.
* Python truthiness of optional arguments (`if status_code:` etc.) is
  made explicit by the `truthy…` functions.
-/

/-- An HTTP response as far as the scraper inspects it: a status code and
a body text. -/
structure Response where
  status_code : Nat
  text : String
  deriving Repr, DecidableEq

/-- `ScrapingResult` from `src/scraper.py` (the per-URL outcome record).
The extracted `data` mapping is kept as a string association list. -/
structure ScrapingResult where
  url : String
  status_code : Nat
  success : Bool
  data : List (String × String)
  timestamp : ℚ
  error_message : Option String
  deriving Repr, DecidableEq

/- ----------------------------------------------------------------
   `src/utils.py`: URL validation (via `urllib.parse.urlparse`)
   ---------------------------------------------------------------- -/

/-- Characters allowed in a URL scheme by `urllib.parse`
(ASCII letters, digits, `+`, `-`, `.`). -/
def isSchemeChar (c : Char) : Bool :=
  c.isAlpha || c.isDigit || c == '+' || c == '-' || c == '.'

/-- Split a character list at the first colon, returning the parts before
and after it (`none` when there is no colon).  Mirrors `url.find(":")` in
`urllib.parse.urlsplit`. -/
def splitAtColon : List Char → Option (List Char × List Char)
  | [] => none
  | c :: cs =>
    if c = ':' then some ([], cs)
    else
      match splitAtColon cs with
      | some (pre, post) => some (c :: pre, post)
      | none => none

/-- The netloc part: when the remainder after the scheme starts with `//`,
everything up to the first `/`, `?` or `#`; otherwise empty.  Mirrors
`_splitnetloc` in `urllib.parse`. -/
def netlocOf : List Char → List Char
  | '/' :: '/' :: rest => rest.takeWhile (fun c => !(c == '/' || c == '?' || c == '#'))
  | _ => []

/-- The scheme and host components produced by `urllib.parse.urlparse`. -/
structure UrlParts where
  scheme : String
  netloc : String
  deriving Repr, DecidableEq

/-- The scheme/netloc fragment of `urllib.parse.urlsplit`: a scheme is
recognised when a colon occurs at a positive position, the first character
is an ASCII letter and all characters before the colon are scheme
characters; the netloc follows a leading `//` of the remainder. -/
def urlparse (url : String) : UrlParts :=
  let cs := url.toList
  let parts :=
    match splitAtColon cs with
    | some (pre, post) =>
      match pre with
      | [] => (([] : List Char), cs)
      | c0 :: _ =>
        if c0.isAlpha && pre.all isSchemeChar then (pre.map Char.toLower, post)
        else (([] : List Char), cs)
    | none => (([] : List Char), cs)
  { scheme := String.mk parts.1, netloc := String.mk (netlocOf parts.2) }

/-- `validate_url` from `src/utils.py`: `all([result.scheme, result.netloc])`,
i.e. both the scheme and the netloc are nonempty strings. -/
def validate_url (url : String) : Bool :=
  !((urlparse url).scheme == "") && !((urlparse url).netloc == "")

/- ----------------------------------------------------------------
   `src/scraper.py`: the sequential executor `WebScraper`
   ---------------------------------------------------------------- -/

/-- The `WebScraper.stats` dictionary. -/
structure WSStats where
  requests_made : Nat
  successful_requests : Nat
  failed_requests : Nat
  total_delay_time : ℚ
  deriving Repr, DecidableEq

/-- The statistics dictionary as initialised in `WebScraper.__init__`. -/
def initStats : WSStats :=
  { requests_made := 0, successful_requests := 0, failed_requests := 0
    total_delay_time := 0 }

instance {α β : Type} [DecidableEq α] [DecidableEq β] : DecidableEq (Except α β) :=
  fun x y =>
    match x, y with
    | Except.ok a, Except.ok b =>
      if h : a = b then isTrue (by rw [h]) else isFalse (by simp [h])
    | Except.error a, Except.error b =>
      if h : a = b then isTrue (by rw [h]) else isFalse (by simp [h])
    | Except.ok _, Except.error _ => isFalse (by simp)
    | Except.error _, Except.ok _ => isFalse (by simp)

/-- Everything observable about one `WebScraper._make_request` call:
its return value (or raised exception), the updated statistics, the list
of pre-request delays charged to `total_delay_time`, the list of backoff
sleeps taken between attempts, and the number of attempts performed. -/
structure MakeRequestOut where
  result : Except String Response
  stats : WSStats
  chargedDelays : List ℚ
  backoffSleeps : List ℚ
  attempts : Nat
  deriving Repr, DecidableEq

/-- The loop body of `WebScraper._make_request`, starting at attempt
index `attempt` with `remaining` further attempts allowed (the Python
loop runs `attempt` over `range(max_retries + 1)`, so `remaining = 0`
means this is the final attempt).  Each attempt first charges
`delay + jitter attempt` to `total_delay_time` when `delay > 0`, then
consults the transport; on success it bumps `requests_made` and
`successful_requests`; on the final failure it bumps `failed_requests`
and re-raises; otherwise it sleeps `2 ^ attempt` seconds and retries. -/
def makeRequestAux (transport : Nat → Except String Response) (delay : ℚ)
    (jitter : Nat → ℚ) : Nat → Nat → WSStats → MakeRequestOut
  | attempt, remaining, st =>
    let charged : List ℚ := if 0 < delay then [delay + jitter attempt] else []
    let st1 := { st with total_delay_time := st.total_delay_time + charged.sum }
    match transport attempt with
    | Except.ok r =>
      { result := Except.ok r
        stats := { st1 with
          requests_made := st1.requests_made + 1
          successful_requests := st1.successful_requests + 1 }
        chargedDelays := charged, backoffSleeps := [], attempts := 1 }
    | Except.error e =>
      match remaining with
      | 0 =>
        { result := Except.error e
          stats := { st1 with failed_requests := st1.failed_requests + 1 }
          chargedDelays := charged, backoffSleeps := [], attempts := 1 }
      | r + 1 =>
        let rest := makeRequestAux transport delay jitter (attempt + 1) r st1
        { result := rest.result
          stats := rest.stats
          chargedDelays := charged ++ rest.chargedDelays
          backoffSleeps := (2 : ℚ) ^ attempt :: rest.backoffSleeps
          attempts := 1 + rest.attempts }

/-- `WebScraper._make_request`: up to `max_retries + 1` attempts starting
at attempt index 0. -/
def makeRequest (transport : Nat → Except String Response) (delay : ℚ)
    (jitter : Nat → ℚ) (max_retries : Nat) (st : WSStats) : MakeRequestOut :=
  makeRequestAux transport delay jitter 0 max_retries st

/-- Everything observable about one `WebScraper.scrape_url` call. -/
structure ScrapeOut where
  result : ScrapingResult
  stats : WSStats
  chargedDelays : List ℚ
  backoffSleeps : List ℚ
  attempts : Nat
  deriving Repr, DecidableEq

/-- `WebScraper.scrape_url` (the non-Selenium path): an invalid URL is
rejected before any network attempt with the fixed error text
`"Invalid URL"` and status code 0; otherwise `_make_request` runs, the
extractor capability is applied to the response body, and any exception
raised by either (including by the extractor) is caught and converted to
a failure result carrying the exception text. -/
def scrape_url (transport : Nat → Except String Response) (delay : ℚ)
    (jitter : Nat → ℚ) (max_retries : Nat)
    (extractor : String → Except String (List (String × String)))
    (now : ℚ) (st : WSStats) (url : String) : ScrapeOut :=
  if validate_url url = false then
    { result := { url := url, status_code := 0, success := false, data := []
                  timestamp := now, error_message := some "Invalid URL" }
      stats := st, chargedDelays := [], backoffSleeps := [], attempts := 0 }
  else
    let mr := makeRequest transport delay jitter max_retries st
    match mr.result with
    | Except.ok resp =>
      match extractor resp.text with
      | Except.ok d =>
        { result := { url := url, status_code := resp.status_code, success := true
                      data := d, timestamp := now, error_message := none }
          stats := mr.stats, chargedDelays := mr.chargedDelays
          backoffSleeps := mr.backoffSleeps, attempts := mr.attempts }
      | Except.error e =>
        { result := { url := url, status_code := 0, success := false, data := []
                      timestamp := now, error_message := some e }
          stats := mr.stats, chargedDelays := mr.chargedDelays
          backoffSleeps := mr.backoffSleeps, attempts := mr.attempts }
    | Except.error e =>
      { result := { url := url, status_code := 0, success := false, data := []
                    timestamp := now, error_message := some e }
        stats := mr.stats, chargedDelays := mr.chargedDelays
        backoffSleeps := mr.backoffSleeps, attempts := mr.attempts }

/-- `WebScraper.scrape_multiple_urls`: scrapes each URL in order,
threading the statistics state, and appends one result per URL. -/
def scrape_multiple_urls (transport : String → Nat → Except String Response)
    (delay : ℚ) (jitter : String → Nat → ℚ) (max_retries : Nat)
    (extractor : String → Except String (List (String × String)))
    (now : ℚ) (st : WSStats) :
    List String → List ScrapingResult × WSStats
  | [] => ([], st)
  | u :: rest =>
    let o := scrape_url (transport u) delay (jitter u) max_retries extractor now st u
    let tail := scrape_multiple_urls transport delay jitter max_retries extractor now o.stats rest
    (o.result :: tail.1, tail.2)

/-- The dictionary returned by `WebScraper.get_stats`. -/
structure StatsReport where
  requests_made : Nat
  successful_requests : Nat
  failed_requests : Nat
  total_delay_time : ℚ
  success_rate : ℚ
  average_delay : ℚ
  deriving Repr, DecidableEq

/-- `WebScraper.get_stats`: the raw counters plus
`success_rate = successful_requests / max(1, requests_made) * 100` and
`average_delay = total_delay_time / max(1, requests_made)`. -/
def get_stats (st : WSStats) : StatsReport :=
  { requests_made := st.requests_made
    successful_requests := st.successful_requests
    failed_requests := st.failed_requests
    total_delay_time := st.total_delay_time
    success_rate := (st.successful_requests : ℚ) / (max 1 st.requests_made : Nat) * 100
    average_delay := st.total_delay_time / (max 1 st.requests_made : Nat) }

/- ----------------------------------------------------------------
   `src/scraper.py`: the concurrent executor `AsyncWebScraper`
   ---------------------------------------------------------------- -/

/-- Everything observable about one `AsyncWebScraper._fetch_url` task:
its result and the number of HTTP attempts it performed. -/
structure FetchOut where
  result : ScrapingResult
  attempts : Nat
  deriving Repr, DecidableEq

/-- `AsyncWebScraper._fetch_url`: under the semaphore, sleep the fixed
`delay`, issue a single `session.get`, and on a completed response build
a success result carrying `response.status` (no `raise_for_status` is
performed, so any completed response — whatever its status code — takes
the success branch); any exception raised inside the task body is caught
and converted to a failure result with status code 0.  `titleOf` is the
HTML-parsing capability extracting the page title from the body text. -/
def fetchUrl (transport : String → Except String Response)
    (titleOf : String → String) (now : ℚ) (url : String) : FetchOut :=
  match transport url with
  | Except.ok resp =>
    { result := { url := url, status_code := resp.status_code, success := true
                  data := [("url", url), ("title", titleOf resp.text),
                           ("text_length", toString resp.text.length)]
                  timestamp := now, error_message := none }
      attempts := 1 }
  | Except.error e =>
    { result := { url := url, status_code := 0, success := false, data := []
                  timestamp := now, error_message := some e }
      attempts := 1 }

/-- The completion events of the batch: the tasks finish in the arbitrary
order `order` (a permutation of the task indices), each event pairing the
task index with that task's result. -/
def completionEvents (transport : String → Except String Response)
    (titleOf : String → String) (now : ℚ) (urls : List String)
    (order : List Nat) : List (Nat × ScrapingResult) :=
  order.map (fun i => (i, (fetchUrl transport titleOf now (urls.getD i "")).result))

/-- `AsyncWebScraper.scrape_multiple_async`: one `_fetch_url` task per
URL, joined by `asyncio.gather`, which returns the results indexed by
task position, not by completion order.  The join is modelled by reading
the completion events back in task-index order. -/
def scrape_multiple_async (transport : String → Except String Response)
    (titleOf : String → String) (now : ℚ) (urls : List String)
    (order : List Nat) : List ScrapingResult :=
  (List.range urls.length).filterMap
    (fun i =>
      ((completionEvents transport titleOf now urls order).find?
        (fun p => p.1 == i)).map Prod.snd)

/- ----------------------------------------------------------------
   `src/monitoring.py`: metrics, snapshots, alerts
   ---------------------------------------------------------------- -/

/-- `d[k] = d.get(k, 0) + 1` on an association list. -/
def bumpKey {α : Type} [BEq α] : List (α × Nat) → α → List (α × Nat)
  | [], k => [(k, 1)]
  | (k0, v) :: rest, k =>
    if k0 == k then (k0, v + 1) :: rest else (k0, v) :: bumpKey rest k

/-- Python truthiness of an optional integer argument (`if status_code:`):
`None` and `0` are falsy. -/
def truthyNat : Option Nat → Bool
  | none => false
  | some n => !(n == 0)

/-- Python truthiness of an optional float argument (`if response_time:`):
`None` and `0.0` are falsy. -/
def truthyQ : Option ℚ → Bool
  | none => false
  | some q => !(q == 0)

/-- Python truthiness of an optional string argument (`if error:`):
`None` and the empty string are falsy. -/
def truthyStr : Option String → Bool
  | none => false
  | some s => !(s == "")

/-- The `ScrapingMetrics` dataclass from `src/monitoring.py`. -/
structure ScrapingMetrics where
  start_time : ℚ
  end_time : Option ℚ
  total_urls : Nat
  successful_requests : Nat
  failed_requests : Nat
  total_bytes_downloaded : Nat
  total_processing_time : ℚ
  average_response_time : ℚ
  requests_per_second : ℚ
  errors_by_type : List (String × Nat)
  status_codes : List (Nat × Nat)
  domain_stats : List (String × Nat)
  deriving Repr, DecidableEq

/-- A fresh `ScrapingMetrics()` created at time `now`. -/
def initMetrics (now : ℚ) : ScrapingMetrics :=
  { start_time := now, end_time := none, total_urls := 0
    successful_requests := 0, failed_requests := 0
    total_bytes_downloaded := 0, total_processing_time := 0
    average_response_time := 0, requests_per_second := 0
    errors_by_type := [], status_codes := [], domain_stats := [] }

/-- `ScrapingMetrics.duration`: `(end_time or datetime.now()) - start_time`,
with the current clock `now` passed explicitly. -/
def duration (m : ScrapingMetrics) (now : ℚ) : ℚ :=
  m.end_time.getD now - m.start_time

/-- `ScrapingMetrics.success_rate`:
`successful / (successful + failed) * 100`, 0 when nothing completed. -/
def success_rate (m : ScrapingMetrics) : ℚ :=
  let total := m.successful_requests + m.failed_requests
  if 0 < total then (m.successful_requests : ℚ) / (total : Nat) * 100 else 0

/-- The dictionary produced by `ScrapingMetrics.to_dict`. -/
structure MetricsSnapshot where
  start_time : ℚ
  end_time : Option ℚ
  duration_seconds : ℚ
  total_urls : Nat
  successful_requests : Nat
  failed_requests : Nat
  snap_success_rate : ℚ
  total_bytes_downloaded : Nat
  total_processing_time : ℚ
  average_response_time : ℚ
  requests_per_second : ℚ
  errors_by_type : List (String × Nat)
  status_codes : List (Nat × Nat)
  domain_stats : List (String × Nat)
  deriving Repr, DecidableEq

/-- `ScrapingMetrics.to_dict` evaluated with the current clock `now`:
every field is copied from the metrics value except `duration_seconds`,
which reads the live clock while `end_time` is unset. -/
def to_dict (m : ScrapingMetrics) (now : ℚ) : MetricsSnapshot :=
  { start_time := m.start_time
    end_time := m.end_time
    duration_seconds := duration m now
    total_urls := m.total_urls
    successful_requests := m.successful_requests
    failed_requests := m.failed_requests
    snap_success_rate := success_rate m
    total_bytes_downloaded := m.total_bytes_downloaded
    total_processing_time := m.total_processing_time
    average_response_time := m.average_response_time
    requests_per_second := m.requests_per_second
    errors_by_type := m.errors_by_type
    status_codes := m.status_codes
    domain_stats := m.domain_stats }

/-- Round `q * 10 ^ d` to the nearest integer, ties to even — the
rounding performed by Python fixed-point formatting, evaluated on the
exact rational `q = q.num / q.den` by integer arithmetic: `f` is the
floor of the scaled value and `r2` twice its remainder. -/
def rndScaled (d : Nat) (q : ℚ) : ℤ :=
  let n := q.num * (10 : ℤ) ^ d
  let m := (q.den : ℤ)
  let f := Int.fdiv n m
  let r2 := 2 * (n - f * m)
  if r2 < m then f
  else if m < r2 then f + 1
  else if f % 2 = 0 then f else f + 1

/-- Python `f"{q:.df}"` fixed-point formatting with `d` decimals,
evaluated on the exact rational value (the source formats the
corresponding binary float; on the one- and two-decimal values the alert
rules produce from small integer counts the two agree). -/
def fmtFixed (d : Nat) (q : ℚ) : String :=
  let n := rndScaled d q
  let a := n.natAbs
  let ip := toString (a / 10 ^ d)
  let fpDigits := toString (a % 10 ^ d)
  let fp := String.mk (List.replicate (d - fpDigits.length) '0') ++ fpDigits
  let s := if d = 0 then ip else ip ++ "." ++ fp
  if n < 0 then "-" ++ s else s

/-- The error-rate alert message from `ScrapingMonitor._check_alerts`:
`f"High error rate: {error_rate:.1f}% (threshold: {thr}%)"`.  The
threshold interpolation `{thr}` is Python `str()` of the float
threshold, which on the one-decimal default `20.0` renders exactly as
one-decimal fixed point. -/
def errorRateAlert (rate thr : ℚ) : String :=
  "High error rate: " ++ fmtFixed 1 rate ++ "% (threshold: " ++ fmtFixed 1 thr ++ "%)"

/-- The slow-response alert message:
`f"Slow response times: {avg:.2f}s average"`. -/
def slowResponseAlert (avg : ℚ) : String :=
  "Slow response times: " ++ fmtFixed 2 avg ++ "s average"

/-- The memory alert message: `f"High memory usage: {mem:.1f}%"`. -/
def memoryAlert (mem : ℚ) : String :=
  "High memory usage: " ++ fmtFixed 1 mem ++ "%"

/-- The mutable state of a `ScrapingMonitor` relevant to metrics and
alerts: the current metrics value, the accumulated alert list, and the
three alert thresholds. -/
structure MonitorState where
  metrics : ScrapingMetrics
  alerts : List String
  error_rate_threshold : ℚ
  response_time_threshold : ℚ
  memory_threshold : ℚ
  deriving Repr, DecidableEq

/-- `ScrapingMonitor.__init__` at construction time `now`: fresh metrics,
an empty alert list, and the default thresholds 20% / 10s / 80%. -/
def initMonitor (now : ℚ) : MonitorState :=
  { metrics := initMetrics now, alerts := []
    error_rate_threshold := 20, response_time_threshold := 10
    memory_threshold := 80 }

/-- `if alert not in self.alerts: self.alerts.append(alert)`. -/
def addAlert (alerts : List String) (a : String) : List String :=
  if a ∈ alerts then alerts else alerts ++ [a]

/-- `ScrapingMonitor._check_alerts`.  `avgMem` is the
`avg_memory_percent` entry of `performance_monitor.get_current_stats()`
(`none` while the sampler has produced no samples, in which case the
lookup defaults to 0 and the memory rule cannot breach).  Each rule, on
breach, appends its formatted message unless the identical string is
already in the list. -/
def checkAlerts (s : MonitorState) (avgMem : Option ℚ) : MonitorState :=
  let total := s.metrics.successful_requests + s.metrics.failed_requests
  let a0 := s.alerts
  let a1 :=
    if 10 ≤ total then
      let rate := (s.metrics.failed_requests : ℚ) / (total : Nat) * 100
      if s.error_rate_threshold < rate then
        addAlert a0 (errorRateAlert rate s.error_rate_threshold)
      else a0
    else a0
  let a2 :=
    if s.response_time_threshold < s.metrics.average_response_time then
      addAlert a1 (slowResponseAlert s.metrics.average_response_time)
    else a1
  let a3 :=
    if s.memory_threshold < avgMem.getD 0 then
      addAlert a2 (memoryAlert (avgMem.getD 0))
    else a2
  { s with alerts := a3 }

/-- The arguments of one `ScrapingMonitor.log_request` call. -/
structure ReqRecord where
  url : String
  success : Bool
  status_code : Option Nat
  response_time : Option ℚ
  error : Option String
  content_size : Option Nat
  deriving Repr, DecidableEq

/-- The metrics update performed by `ScrapingMonitor.log_request`:
bump the success or failure counter (and the error histogram when a
truthy error text accompanies a failure); bump the status-code histogram
when the status is truthy; when the response time is truthy, accumulate
it and recompute the average over the already-updated completion count;
accumulate a truthy content size; and always bump the domain histogram
keyed by the URL's netloc. -/
def updateMetrics (m : ScrapingMetrics) (r : ReqRecord) : ScrapingMetrics :=
  let m1 :=
    if r.success then
      { m with successful_requests := m.successful_requests + 1 }
    else
      let mf := { m with failed_requests := m.failed_requests + 1 }
      if truthyStr r.error then
        { mf with errors_by_type := bumpKey mf.errors_by_type (r.error.getD "") }
      else mf
  let m2 :=
    if truthyNat r.status_code then
      { m1 with status_codes := bumpKey m1.status_codes (r.status_code.getD 0) }
    else m1
  let m3 :=
    if truthyQ r.response_time then
      let t := m2.total_processing_time + r.response_time.getD 0
      let total := m2.successful_requests + m2.failed_requests
      { m2 with total_processing_time := t, average_response_time := t / (total : Nat) }
    else m2
  let m4 :=
    if truthyNat r.content_size then
      { m3 with total_bytes_downloaded := m3.total_bytes_downloaded + r.content_size.getD 0 }
    else m3
  { m4 with domain_stats := bumpKey m4.domain_stats (urlparse r.url).netloc }

/-- `ScrapingMonitor.log_request`: update the metrics from the record,
then run `_check_alerts` (progress display and log output are pure side
effects and carry no state the claims mention). -/
def log_request (s : MonitorState) (r : ReqRecord) (avgMem : Option ℚ) : MonitorState :=
  checkAlerts { s with metrics := updateMetrics s.metrics r } avgMem

/-- `ScrapingMonitor.start_session` at time `now`: replaces the metrics
with a fresh value whose `total_urls` is the given count (`total_urls or 0`),
restarts the progress tracker and the sampler — and leaves `self.alerts`
untouched (the alert list is created only in `__init__`). -/
def start_session (s : MonitorState) (now : ℚ) (total_urls : Option Nat) : MonitorState :=
  { s with metrics :=
      { initMetrics now with total_urls := total_urls.getD 0 } }

/-- The formatted messages of the alert rules that breach in state `s`
(in the order `_check_alerts` evaluates them): the error-rate rule once
at least 10 requests completed, the slow-response rule, and the memory
rule.  `checkAlerts` appends exactly these through `addAlert`. -/
def breachMessages (s : MonitorState) (avgMem : Option ℚ) : List String :=
  let total := s.metrics.successful_requests + s.metrics.failed_requests
  (if 10 ≤ total ∧
      s.error_rate_threshold < (s.metrics.failed_requests : ℚ) / (total : Nat) * 100 then
    [errorRateAlert ((s.metrics.failed_requests : ℚ) / (total : Nat) * 100) s.error_rate_threshold]
  else []) ++
  (if s.response_time_threshold < s.metrics.average_response_time then
    [slowResponseAlert s.metrics.average_response_time]
  else []) ++
  (if s.memory_threshold < avgMem.getD 0 then
    [memoryAlert (avgMem.getD 0)]
  else [])

/- ----------------------------------------------------------------
   `src/monitoring.py`: the performance sampler's ring buffer
   ---------------------------------------------------------------- -/

/-- One sample captured by `PerformanceMonitor._monitor_loop` (the io
counter dictionaries are kept as opaque association lists). -/
structure SystemSample where
  timestamp : ℚ
  cpu_percent : ℚ
  memory_percent : ℚ
  memory_used_mb : ℚ
  disk_io : List (String × ℚ)
  network_io : List (String × ℚ)
  process_count : Nat
  deriving Repr, DecidableEq

/-- Appending to a `collections.deque` with `maxlen = cap`: when the
buffer is below capacity the element is appended; otherwise the oldest
element is evicted first. -/
def dequeAppend {α : Type} (cap : Nat) (buf : List α) (x : α) : List α :=
  if buf.length < cap then buf ++ [x]
  else buf.drop (buf.length + 1 - cap) ++ [x]

/-- The capacity of `PerformanceMonitor.metrics_history`
(`deque(maxlen=1000)`). -/
def monitorCapacity : Nat := 1000

/-- The effect on the ring buffer of a run of sampler wakes appending
the samples `xs` in order. -/
def monitorAppendAll (buf : List SystemSample) (xs : List SystemSample) : List SystemSample :=
  xs.foldl (dequeAppend monitorCapacity) buf

/- ----------------------------------------------------------------
   Helper lemmas
   ---------------------------------------------------------------- -/

lemma validate_url_false_of_missing (url : String)
    (h : (urlparse url).scheme = "" ∨ (urlparse url).netloc = "") :
    validate_url url = false := by
  unfold validate_url
  rcases h with h | h <;> simp [h]

lemma makeRequestAux_allFail (errf : Nat → String) (delay : ℚ) (hd : 0 < delay)
    (jitter : Nat → ℚ) :
    ∀ (r a : Nat) (st : WSStats),
      makeRequestAux (fun n => Except.error (errf n)) delay jitter a r st =
        { result := Except.error (errf (a + r))
          stats := { st with
            failed_requests := st.failed_requests + 1
            total_delay_time := st.total_delay_time +
              ((List.range' a (r + 1)).map (fun i => delay + jitter i)).sum }
          chargedDelays := (List.range' a (r + 1)).map (fun i => delay + jitter i)
          backoffSleeps := (List.range' a r).map (fun i => (2 : ℚ) ^ i)
          attempts := r + 1 } := by
  intro r
  induction r with
  | zero =>
    intro a st
    simp [makeRequestAux, if_pos hd, List.range'_succ]
  | succ n ih =>
    intro a st
    rw [makeRequestAux]
    simp only [if_pos hd, ih (a + 1)]
    simp [List.range'_succ, List.range'_concat]
    refine ⟨?_, ?_, ?_⟩
    · have h : a + 1 + n = a + (n + 1) := by omega
      rw [h]
    · ring
    · omega

lemma makeRequestAux_ok (transport : Nat → Except String Response) (delay : ℚ)
    (jitter : Nat → ℚ) (a r : Nat) (st : WSStats) (v : Response)
    (h : transport a = Except.ok v) :
    makeRequestAux transport delay jitter a r st =
      { result := Except.ok v
        stats := { st with
          requests_made := st.requests_made + 1
          successful_requests := st.successful_requests + 1
          total_delay_time := st.total_delay_time +
            (if 0 < delay then [delay + jitter a] else []).sum }
        chargedDelays := if 0 < delay then [delay + jitter a] else []
        backoffSleeps := [], attempts := 1 } := by
  cases r <;> · rw [makeRequestAux, h]

lemma makeRequestAux_error_last (transport : Nat → Except String Response) (delay : ℚ)
    (jitter : Nat → ℚ) (a : Nat) (st : WSStats) (e : String)
    (h : transport a = Except.error e) :
    makeRequestAux transport delay jitter a 0 st =
      { result := Except.error e
        stats := { st with
          failed_requests := st.failed_requests + 1
          total_delay_time := st.total_delay_time +
            (if 0 < delay then [delay + jitter a] else []).sum }
        chargedDelays := if 0 < delay then [delay + jitter a] else []
        backoffSleeps := [], attempts := 1 } := by
  rw [makeRequestAux, h]

lemma makeRequestAux_error_step (transport : Nat → Except String Response) (delay : ℚ)
    (jitter : Nat → ℚ) (a r : Nat) (st : WSStats) (e : String)
    (h : transport a = Except.error e) :
    makeRequestAux transport delay jitter a (r + 1) st =
      (let st1 := { st with total_delay_time := st.total_delay_time +
          (if 0 < delay then [delay + jitter a] else []).sum }
       let rest := makeRequestAux transport delay jitter (a + 1) r st1
       { result := rest.result
         stats := rest.stats
         chargedDelays := (if 0 < delay then [delay + jitter a] else []) ++ rest.chargedDelays
         backoffSleeps := (2 : ℚ) ^ a :: rest.backoffSleeps
         attempts := 1 + rest.attempts }) := by
  rw [makeRequestAux, h]

lemma makeRequestAux_req_eq_succ (transport : Nat → Except String Response)
    (delay : ℚ) (jitter : Nat → ℚ) :
    ∀ (r a : Nat) (st : WSStats),
      st.requests_made = st.successful_requests →
      (makeRequestAux transport delay jitter a r st).stats.requests_made =
        (makeRequestAux transport delay jitter a r st).stats.successful_requests := by
  intro r
  induction r with
  | zero =>
    intro a st h
    cases htr : transport a with
    | ok v => rw [makeRequestAux_ok transport delay jitter a 0 st v htr]; simpa using h
    | error e => rw [makeRequestAux_error_last transport delay jitter a st e htr]; simpa using h
  | succ n ih =>
    intro a st h
    cases htr : transport a with
    | ok v => rw [makeRequestAux_ok transport delay jitter a (n + 1) st v htr]; simpa using h
    | error e =>
      rw [makeRequestAux_error_step transport delay jitter a n st e htr]
      exact ih (a + 1) _ (by simpa using h)

lemma makeRequestAux_error_stats (transport : Nat → Except String Response)
    (delay : ℚ) (jitter : Nat → ℚ) :
    ∀ (r a : Nat) (st : WSStats) (e : String),
      (makeRequestAux transport delay jitter a r st).result = Except.error e →
      (makeRequestAux transport delay jitter a r st).stats.requests_made = st.requests_made ∧
      (makeRequestAux transport delay jitter a r st).stats.successful_requests = st.successful_requests ∧
      (makeRequestAux transport delay jitter a r st).stats.failed_requests = st.failed_requests + 1 := by
  intro r
  induction r with
  | zero =>
    intro a st e h
    cases htr : transport a with
    | ok v => rw [makeRequestAux_ok transport delay jitter a 0 st v htr] at h; simp at h
    | error e0 =>
      rw [makeRequestAux_error_last transport delay jitter a st e0 htr]
      simp
  | succ n ih =>
    intro a st e h
    cases htr : transport a with
    | ok v => rw [makeRequestAux_ok transport delay jitter a (n + 1) st v htr] at h; simp at h
    | error e0 =>
      rw [makeRequestAux_error_step transport delay jitter a n st e0 htr] at h ⊢
      obtain ⟨h1, h2, h3⟩ := ih (a + 1) _ e (by simpa using h)
      exact ⟨by simpa using h1, by simpa using h2, by simpa using h3⟩

lemma scrape_url_req_eq_succ (transport : Nat → Except String Response)
    (delay : ℚ) (jitter : Nat → ℚ) (max_retries : Nat)
    (extractor : String → Except String (List (String × String)))
    (now : ℚ) (st : WSStats) (url : String)
    (h : st.requests_made = st.successful_requests) :
    (scrape_url transport delay jitter max_retries extractor now st url).stats.requests_made =
      (scrape_url transport delay jitter max_retries extractor now st url).stats.successful_requests := by
  have hm := makeRequestAux_req_eq_succ transport delay jitter max_retries 0 st h
  unfold scrape_url makeRequest
  split
  · exact h
  · rcases hmr : (makeRequestAux transport delay jitter 0 max_retries st).result with e | v
    · simp [hmr, hm]
    · simp only [hmr]
      rcases hex : extractor v.text with e0 | d <;> simp [hex, hm]

lemma scrape_multiple_req_eq_succ (transport : String → Nat → Except String Response)
    (delay : ℚ) (jitter : String → Nat → ℚ) (max_retries : Nat)
    (extractor : String → Except String (List (String × String))) (now : ℚ) :
    ∀ (urls : List String) (st : WSStats),
      st.requests_made = st.successful_requests →
      (scrape_multiple_urls transport delay jitter max_retries extractor now st urls).2.requests_made =
        (scrape_multiple_urls transport delay jitter max_retries extractor now st urls).2.successful_requests := by
  intro urls
  induction urls with
  | nil => intro st h; simpa [scrape_multiple_urls] using h
  | cons u rest ih =>
    intro st h
    rw [scrape_multiple_urls]
    exact ih _ (scrape_url_req_eq_succ (transport u) delay (jitter u) max_retries extractor now st u h)

/- ----------------------------------------------------------------
   Claim theorems
   ---------------------------------------------------------------- -/

/-- C2: for every URL string lacking a scheme or a host, the sequential
executor immediately returns a failure outcome with error text exactly
"Invalid URL" and status code 0, performs no network attempt and no
retry, and leaves the statistics (in particular the running delay-time
counter `total_delay_time`) unchanged. -/
theorem C2_invalid_url_short_circuits
    (transport : Nat → Except String Response) (delay : ℚ) (jitter : Nat → ℚ)
    (max_retries : Nat) (extractor : String → Except String (List (String × String)))
    (now : ℚ) (st : WSStats) (url : String)
    (h : (urlparse url).scheme = "" ∨ (urlparse url).netloc = "") :
    scrape_url transport delay jitter max_retries extractor now st url =
      { result := { url := url, status_code := 0, success := false, data := []
                    timestamp := now, error_message := some "Invalid URL" }
        stats := st, chargedDelays := [], backoffSleeps := [], attempts := 0 } := by
  have hv := validate_url_false_of_missing url h
  simp [scrape_url, hv]

/-- Witness for C2 at the malformed URL "not-a-url". -/
theorem C2_witness :
    scrape_url (fun _ => Except.error "boom") 1 (fun _ => 0) 3
        (fun _ => Except.ok []) 0 initStats "not-a-url" =
      { result := { url := "not-a-url", status_code := 0, success := false, data := []
                    timestamp := 0, error_message := some "Invalid URL" }
        stats := initStats, chargedDelays := [], backoffSleeps := [], attempts := 0 } :=
  C2_invalid_url_short_circuits (fun _ => Except.error "boom") 1 (fun _ => 0) 3
    (fun _ => Except.ok []) 0 initStats "not-a-url" (Or.inl (by decide))

/-- C3: with `max_retries = N` and a transport failing on every attempt
(attempt `n` raising error text `errf n`), and a positive base delay, the
sequential executor performs exactly `N + 1` attempts, charges exactly the
`N + 1` jittered delay intervals `delay + jitter i` (i = 0..N) to the
delay-time counter, sleeps `2 ^ i` seconds between consecutive attempts
(i = 0..N-1), and the resulting failure outcome of `scrape_url` carries
only the last attempt's error text `errf N`. -/
theorem C3_retry_ladder (errf : Nat → String) (delay : ℚ) (hd : 0 < delay)
    (jitter : Nat → ℚ) (N : Nat) (st : WSStats)
    (extractor : String → Except String (List (String × String)))
    (now : ℚ) (url : String) (hu : validate_url url = true) :
    (makeRequest (fun n => Except.error (errf n)) delay jitter N st).attempts = N + 1 ∧
    (makeRequest (fun n => Except.error (errf n)) delay jitter N st).chargedDelays =
      (List.range (N + 1)).map (fun i => delay + jitter i) ∧
    (makeRequest (fun n => Except.error (errf n)) delay jitter N st).stats.total_delay_time =
      st.total_delay_time + ((List.range (N + 1)).map (fun i => delay + jitter i)).sum ∧
    (makeRequest (fun n => Except.error (errf n)) delay jitter N st).backoffSleeps =
      (List.range N).map (fun i => (2 : ℚ) ^ i) ∧
    (makeRequest (fun n => Except.error (errf n)) delay jitter N st).result =
      Except.error (errf N) ∧
    (scrape_url (fun n => Except.error (errf n)) delay jitter N extractor now st url).result.success = false ∧
    (scrape_url (fun n => Except.error (errf n)) delay jitter N extractor now st url).result.error_message =
      some (errf N) ∧
    (scrape_url (fun n => Except.error (errf n)) delay jitter N extractor now st url).attempts = N + 1 := by
  have hall := makeRequestAux_allFail errf delay hd jitter N 0 st
  have hrange : List.range' 0 (N + 1) = List.range (N + 1) := (List.range_eq_range' (N + 1)).symm
  have hrangeN : List.range' 0 N = List.range N := (List.range_eq_range' N).symm
  have hscrape : scrape_url (fun n => Except.error (errf n)) delay jitter N extractor now st url =
      { result := { url := url, status_code := 0, success := false, data := []
                    timestamp := now, error_message := some (errf (0 + N)) }
        stats := { st with
          failed_requests := st.failed_requests + 1
          total_delay_time := st.total_delay_time +
            ((List.range' 0 (N + 1)).map (fun i => delay + jitter i)).sum }
        chargedDelays := (List.range' 0 (N + 1)).map (fun i => delay + jitter i)
        backoffSleeps := (List.range' 0 N).map (fun i => (2 : ℚ) ^ i)
        attempts := N + 1 } := by
    unfold scrape_url makeRequest
    rw [if_neg (by simp [hu]), hall]
  refine ⟨?_, ?_, ?_, ?_, ?_, ?_, ?_, ?_⟩
  · unfold makeRequest; rw [hall]
  · unfold makeRequest; rw [hall]; simp [hrange]
  · unfold makeRequest; rw [hall]; simp [hrange]
  · unfold makeRequest; rw [hall]; simp [hrangeN]
  · unfold makeRequest; rw [hall]; simp
  · rw [hscrape]
  · rw [hscrape]; simp
  · rw [hscrape]

/-- Witness for C3 at N = 2, delay 1, zero jitter, transport failing
every attempt with error text the attempt index. -/
theorem C3_witness :
    (makeRequest (fun n => Except.error (toString n)) 1 (fun _ => 0) 2 initStats).attempts = 3 ∧
    (scrape_url (fun n => Except.error (toString n)) 1 (fun _ => 0) 2
        (fun _ => Except.ok []) 0 initStats "http://a.com/").result.error_message = some "2" := by
  have h := C3_retry_ladder toString 1 (by norm_num) (fun _ => 0) 2 initStats
    (fun _ => Except.ok []) 0 "http://a.com/" (by decide)
  exact ⟨h.1, h.2.2.2.2.2.2.1⟩

lemma get_stats_rate (st : WSStats) (h : st.requests_made = st.successful_requests) :
    (0 < st.successful_requests → (get_stats st).success_rate = 100) ∧
    (st.successful_requests = 0 → (get_stats st).success_rate = 0) := by
  constructor
  · intro hpos
    unfold get_stats
    simp only [h]
    rw [Nat.max_eq_right hpos]
    have hne : ((st.successful_requests : ℚ)) ≠ 0 := by
      exact_mod_cast Nat.pos_iff_ne_zero.mp hpos
    rw [div_self hne]
    norm_num
  · intro h0
    unfold get_stats
    simp [h, h0]

/-- C10: in the sequential executor's statistics, `requests_made` is
incremented only together with `successful_requests` (a permanently
failing `_make_request` bumps `failed_requests` but leaves both
`requests_made` and `successful_requests` unchanged), so after any batch
the two counters are equal and `get_stats`'s `success_rate` is 100
whenever any request succeeded and 0 exactly when none did. -/
theorem C10_success_rate_blind_to_failures
    (transport : String → Nat → Except String Response)
    (tr1 : Nat → Except String Response) (delay : ℚ)
    (jitter : String → Nat → ℚ) (j1 : Nat → ℚ) (max_retries : Nat)
    (extractor : String → Except String (List (String × String)))
    (now : ℚ) (urls : List String) (st st1 : WSStats) (e : String)
    (hinv : st.requests_made = st.successful_requests)
    (herr : (makeRequest tr1 delay j1 max_retries st1).result = Except.error e) :
    ((makeRequest tr1 delay j1 max_retries st1).stats.requests_made = st1.requests_made ∧
     (makeRequest tr1 delay j1 max_retries st1).stats.successful_requests = st1.successful_requests ∧
     (makeRequest tr1 delay j1 max_retries st1).stats.failed_requests = st1.failed_requests + 1) ∧
    ((scrape_multiple_urls transport delay jitter max_retries extractor now st urls).2.requests_made =
      (scrape_multiple_urls transport delay jitter max_retries extractor now st urls).2.successful_requests) ∧
    (0 < (scrape_multiple_urls transport delay jitter max_retries extractor now st urls).2.successful_requests →
      (get_stats (scrape_multiple_urls transport delay jitter max_retries extractor now st urls).2).success_rate = 100) ∧
    ((scrape_multiple_urls transport delay jitter max_retries extractor now st urls).2.successful_requests = 0 →
      (get_stats (scrape_multiple_urls transport delay jitter max_retries extractor now st urls).2).success_rate = 0) := by
  have hfinal := scrape_multiple_req_eq_succ transport delay jitter max_retries extractor now urls st hinv
  have hrate := get_stats_rate _ hfinal
  exact ⟨makeRequestAux_error_stats tr1 delay j1 max_retries 0 st1 e herr, hfinal, hrate.1, hrate.2⟩

/-- Witness for C10: a failing single-attempt request leaves
`requests_made` unchanged, and a batch with one successful URL reports a
100% success rate. -/
theorem C10_witness :
    (makeRequest (fun _ => Except.error "x") 1 (fun _ => 0) 0 initStats).stats.requests_made =
      initStats.requests_made ∧
    (get_stats (scrape_multiple_urls (fun _ _ => Except.ok { status_code := 200, text := "" }) 1
        (fun _ _ => 0) 0 (fun _ => Except.ok []) 0 initStats ["http://a.com/"]).2).success_rate = 100 := by
  have h := C10_success_rate_blind_to_failures
    (fun _ _ => Except.ok { status_code := 200, text := "" })
    (fun _ => Except.error "x") 1 (fun _ _ => 0) (fun _ => 0) 0
    (fun _ => Except.ok []) 0 ["http://a.com/"] initStats initStats "x" rfl (by decide)
  exact ⟨h.1.1, h.2.2.1 (by decide)⟩

lemma scrape_multiple_length (transport : String → Nat → Except String Response)
    (delay : ℚ) (jitter : String → Nat → ℚ) (max_retries : Nat)
    (extractor : String → Except String (List (String × String))) (now : ℚ) :
    ∀ (urls : List String) (st : WSStats),
      (scrape_multiple_urls transport delay jitter max_retries extractor now st urls).1.length =
        urls.length := by
  intro urls
  induction urls with
  | nil => intro st; simp [scrape_multiple_urls]
  | cons u rest ih => intro st; rw [scrape_multiple_urls]; simp [ih]

lemma find_keyed_map (f : Nat → ScrapingResult) :
    ∀ (l : List Nat) (i : Nat), i ∈ l →
      (l.map (fun j => (j, f j))).find? (fun p => p.1 == i) = some (i, f i) := by
  intro l
  induction l with
  | nil => intro i h; simp at h
  | cons j rest ih =>
    intro i h
    by_cases hj : j = i
    · subst hj
      simp [List.find?]
    · rcases List.mem_cons.mp h with h1 | h2
      · exact absurd h1.symm hj
      · simp only [List.map_cons, List.find?]
        have : (j == i) = false := by simp [hj]
        rw [this]
        exact ih i h2

lemma filterMap_eq_map_of_some {α β : Type} (F : α → Option β) (g : α → β) :
    ∀ l : List α, (∀ i ∈ l, F i = some (g i)) → l.filterMap F = l.map g := by
  intro l
  induction l with
  | nil => intro _; simp
  | cons x rest ih =>
    intro h
    rw [List.filterMap_cons, h x (List.mem_cons_self x rest), List.map_cons,
      ih (fun i hi => h i (List.mem_cons_of_mem x hi))]

lemma fetchUrl_url (transport : String → Except String Response)
    (titleOf : String → String) (now : ℚ) (url : String) :
    (fetchUrl transport titleOf now url).result.url = url := by
  unfold fetchUrl
  cases transport url <;> simp

lemma scrape_multiple_async_eq_map (transport : String → Except String Response)
    (titleOf : String → String) (now : ℚ) (urls : List String) (order : List Nat)
    (hperm : order.Perm (List.range urls.length)) :
    scrape_multiple_async transport titleOf now urls order =
      (List.range urls.length).map
        (fun i => (fetchUrl transport titleOf now (urls.getD i "")).result) := by
  unfold scrape_multiple_async completionEvents
  apply filterMap_eq_map_of_some
  intro i hi
  have hmem : i ∈ order := hperm.mem_iff.mpr hi
  rw [find_keyed_map (fun j => (fetchUrl transport titleOf now (urls.getD j "")).result) order i hmem]
  rfl

lemma getD_map_range {β : Type} (g : Nat → β) (n i : Nat) (hi : i < n) (d : β) :
    ((List.range n).map g).getD i d = g i := by
  rw [List.getD_eq_getElem?_getD, List.getElem?_map, List.getElem?_range hi]
  rfl

/-- C1: batch processing returns exactly one result per input URL in both
executors, and in the concurrent executor the i-th result's url equals
the i-th input URL for every completion order (any permutation of the
task indices). -/
theorem C1_one_outcome_per_url_in_order
    (transport : String → Nat → Except String Response) (delay : ℚ)
    (jitter : String → Nat → ℚ) (max_retries : Nat)
    (extractor : String → Except String (List (String × String)))
    (now : ℚ) (st : WSStats)
    (atransport : String → Except String Response) (titleOf : String → String)
    (anow : ℚ) (urls : List String) (order : List Nat)
    (hperm : order.Perm (List.range urls.length)) :
    (scrape_multiple_urls transport delay jitter max_retries extractor now st urls).1.length =
      urls.length ∧
    (scrape_multiple_async atransport titleOf anow urls order).length = urls.length ∧
    ∀ i, i < urls.length →
      ((scrape_multiple_async atransport titleOf anow urls order).getD i
          { url := "", status_code := 0, success := false, data := []
            timestamp := 0, error_message := none }).url = urls.getD i "" := by
  refine ⟨scrape_multiple_length transport delay jitter max_retries extractor now urls st, ?_, ?_⟩
  · rw [scrape_multiple_async_eq_map atransport titleOf anow urls order hperm]
    simp
  · intro i hi
    rw [scrape_multiple_async_eq_map atransport titleOf anow urls order hperm,
      getD_map_range _ urls.length i hi, fetchUrl_url]

/-- Witness for C1: three URLs, completion order 2-0-1. -/
theorem C1_witness :
    (scrape_multiple_urls (fun _ _ => Except.ok { status_code := 200, text := "" }) 1
        (fun _ _ => 0) 0 (fun _ => Except.ok []) 0 initStats
        ["http://a.com/", "not-a-url", "http://b.com/"]).1.length = 3 ∧
    (scrape_multiple_async (fun _ => Except.ok { status_code := 200, text := "" })
        (fun _ => "") 0 ["http://a.com/", "not-a-url", "http://b.com/"] [2, 0, 1]).length = 3 ∧
    ((scrape_multiple_async (fun _ => Except.ok { status_code := 200, text := "" })
        (fun _ => "") 0 ["http://a.com/", "not-a-url", "http://b.com/"] [2, 0, 1]).getD 1
        { url := "", status_code := 0, success := false, data := []
          timestamp := 0, error_message := none }).url = "not-a-url" := by
  have h := C1_one_outcome_per_url_in_order
    (fun _ _ => Except.ok { status_code := 200, text := "" }) 1 (fun _ _ => 0) 0
    (fun _ => Except.ok []) 0 initStats
    (fun _ => Except.ok { status_code := 200, text := "" }) (fun _ => "") 0
    ["http://a.com/", "not-a-url", "http://b.com/"] [2, 0, 1] (by decide)
  exact ⟨h.1, h.2.1, h.2.2 1 (by decide)⟩

lemma dequeAppend_length {α : Type} (cap : Nat) (hcap : 0 < cap) (buf : List α) (x : α)
    (h : buf.length ≤ cap) : (dequeAppend cap buf x).length ≤ cap := by
  unfold dequeAppend
  split
  · simp
    omega
  · simp [List.length_drop]
    omega

lemma foldl_dequeAppend_eq {α : Type} (cap : Nat) (hcap : 0 < cap) :
    ∀ (xs buf : List α), buf.length ≤ cap →
      xs.foldl (dequeAppend cap) buf = (buf ++ xs).drop (buf.length + xs.length - cap) := by
  intro xs
  induction xs with
  | nil =>
    intro buf h
    have h0 : buf.length - cap = 0 := by omega
    simp [h0]
  | cons x rest ih =>
    intro buf h
    rw [List.foldl_cons]
    by_cases hlt : buf.length < cap
    · have h1 : dequeAppend cap buf x = buf ++ [x] := by
        unfold dequeAppend; rw [if_pos hlt]
      rw [ih _ (dequeAppend_length cap hcap buf x h), h1]
      have e1 : (buf ++ [x]).length + rest.length - cap =
          buf.length + (x :: rest).length - cap := by simp; omega
      rw [e1, List.append_assoc]
      simp
    · have hcapeq : buf.length = cap := Nat.le_antisymm h (Nat.not_lt.mp hlt)
      have hidx : buf.length + 1 - cap = 1 := by omega
      have h1 : dequeAppend cap buf x = buf.drop 1 ++ [x] := by
        unfold dequeAppend; rw [if_neg hlt, hidx]
      rw [ih _ (dequeAppend_length cap hcap buf x h), h1]
      cases buf with
      | nil => simp at hcapeq; omega
      | cons b bt =>
        have hbt : bt.length + 1 = cap := by simpa using hcapeq
        have e1 : ((b :: bt).drop 1 ++ [x]).length + rest.length - cap = rest.length := by
          simp
          omega
        have e2 : (b :: bt).length + (x :: rest).length - cap = rest.length + 1 := by
          simp
          omega
        rw [e1, e2]
        simp [List.append_assoc]

/-- C9: the sampler's ring buffer never exceeds its capacity of 1000,
and appending `1000 + K` samples to an initially empty buffer leaves
exactly the 1000 most recent samples, the oldest having been evicted
first (the surviving buffer is the input suffix past the first
`length - 1000` samples). -/
theorem C9_ring_buffer_capacity_fifo (buf xs : List SystemSample)
    (hbuf : buf.length ≤ monitorCapacity) (hlong : monitorCapacity ≤ xs.length) :
    (monitorAppendAll buf xs).length ≤ monitorCapacity ∧
    monitorAppendAll [] xs = xs.drop (xs.length - monitorCapacity) ∧
    (monitorAppendAll [] xs).length = monitorCapacity := by
  have hcap : 0 < monitorCapacity := by norm_num [monitorCapacity]
  refine ⟨?_, ?_, ?_⟩
  · unfold monitorAppendAll
    rw [foldl_dequeAppend_eq monitorCapacity hcap xs buf hbuf]
    simp [List.length_drop]
    omega
  · unfold monitorAppendAll
    rw [foldl_dequeAppend_eq monitorCapacity hcap xs [] (by simp)]
    simp
  · unfold monitorAppendAll
    rw [foldl_dequeAppend_eq monitorCapacity hcap xs [] (by simp)]
    simp [List.length_drop]
    omega

/-- Witness for C9: 1001 appends to the empty ring buffer. -/
theorem C9_witness :
    (monitorAppendAll []
      (List.replicate 1001
        { timestamp := 0, cpu_percent := 0, memory_percent := 0, memory_used_mb := 0
          disk_io := [], network_io := [], process_count := 0 })).length ≤ monitorCapacity ∧
    monitorAppendAll []
        (List.replicate 1001
          { timestamp := 0, cpu_percent := 0, memory_percent := 0, memory_used_mb := 0
            disk_io := [], network_io := [], process_count := 0 }) =
      (List.replicate 1001
        { timestamp := 0, cpu_percent := 0, memory_percent := 0, memory_used_mb := 0
          disk_io := [], network_io := [], process_count := 0 }).drop
        ((List.replicate 1001
          ({ timestamp := 0, cpu_percent := 0, memory_percent := 0, memory_used_mb := 0
             disk_io := [], network_io := [], process_count := 0 } : SystemSample)).length -
          monitorCapacity) := by
  have h := C9_ring_buffer_capacity_fifo []
    (List.replicate 1001
      { timestamp := 0, cpu_percent := 0, memory_percent := 0, memory_used_mb := 0
        disk_io := [], network_io := [], process_count := 0 })
    (by simp) (by simp only [List.length_replicate]; norm_num [monitorCapacity])
  exact ⟨h.1, h.2.1⟩

lemma addAlert_append (alerts : List String) (a : String) :
    ∃ t, addAlert alerts a = alerts ++ t := by
  unfold addAlert
  split
  · exact ⟨[], by simp⟩
  · exact ⟨[a], rfl⟩

lemma foldl_addAlert_append :
    ∀ (msgs alerts : List String), ∃ t, msgs.foldl addAlert alerts = alerts ++ t := by
  intro msgs
  induction msgs with
  | nil => intro alerts; exact ⟨[], by simp⟩
  | cons m rest ih =>
    intro alerts
    obtain ⟨t1, h1⟩ := addAlert_append alerts m
    obtain ⟨t2, h2⟩ := ih (addAlert alerts m)
    exact ⟨t1 ++ t2, by rw [List.foldl_cons, h2, h1, List.append_assoc]⟩

lemma checkAlerts_eq_foldl (s : MonitorState) (mem : Option ℚ) :
    checkAlerts s mem = { s with alerts := (breachMessages s mem).foldl addAlert s.alerts } := by
  unfold checkAlerts breachMessages
  by_cases h1 : 10 ≤ s.metrics.successful_requests + s.metrics.failed_requests <;>
  by_cases h2 : s.error_rate_threshold <
    (s.metrics.failed_requests : ℚ) /
      ((s.metrics.successful_requests : ℚ) + (s.metrics.failed_requests : ℚ)) * 100 <;>
  by_cases h3 : s.response_time_threshold < s.metrics.average_response_time <;>
  by_cases h4 : s.memory_threshold < mem.getD 0 <;>
  simp [h1, h2, h3, h4]

/-- Counterexample to C4 as stated: in the concurrent executor a
completed HTTP 404 response — a non-2xx/3xx status — yields a success
outcome (success flag true), because `_fetch_url` never checks the
status; the claimed failure outcome does not occur. -/
theorem C4_counterexample :
    (404 < 200 ∨ 400 ≤ 404) ∧
    (fetchUrl (fun _ => Except.ok { status_code := 404, text := "" })
        (fun _ => "") 0 "http://a.com/").result.success = true := by
  exact ⟨by norm_num, rfl⟩

/-- C4 (amended): the concurrent executor performs a single attempt per
URL with no retry, and classifies outcomes by transport completion only:
any completed HTTP response — whatever its status code — produces a
success outcome carrying that status, and only a raised transport
exception produces a failure outcome (status 0, error text preserved). -/
theorem C4_single_attempt_status_ignored
    (transport : String → Except String Response) (titleOf : String → String)
    (now : ℚ) (url : String) :
    (fetchUrl transport titleOf now url).attempts = 1 ∧
    (∀ r, transport url = Except.ok r →
      (fetchUrl transport titleOf now url).result.success = true ∧
      (fetchUrl transport titleOf now url).result.status_code = r.status_code) ∧
    (∀ e, transport url = Except.error e →
      (fetchUrl transport titleOf now url).result.success = false ∧
      (fetchUrl transport titleOf now url).result.status_code = 0 ∧
      (fetchUrl transport titleOf now url).result.error_message = some e) := by
  refine ⟨?_, ?_, ?_⟩
  · unfold fetchUrl; cases transport url <;> rfl
  · intro r hr; unfold fetchUrl; rw [hr]; exact ⟨rfl, rfl⟩
  · intro e he; unfold fetchUrl; rw [he]; exact ⟨rfl, rfl, rfl⟩

/-- Witness for C4's amended theorem: a 404 response and a raised
timeout. -/
theorem C4_witness :
    (fetchUrl (fun _ => Except.ok { status_code := 404, text := "" })
        (fun _ => "") 0 "http://b.com/").result.status_code = 404 ∧
    (fetchUrl (fun _ => Except.error "timeout") (fun _ => "") 0
        "http://c.com/").result.success = false := by
  have h1 := C4_single_attempt_status_ignored
    (fun _ => Except.ok { status_code := 404, text := "" }) (fun _ => "") 0 "http://b.com/"
  have h2 := C4_single_attempt_status_ignored
    (fun _ => Except.error "timeout") (fun _ => "") 0 "http://c.com/"
  exact ⟨(h1.2.1 { status_code := 404, text := "" } rfl).2, (h2.2.2 "timeout" rfl).1⟩

/-- Counterexample to C8 as stated: starting the next session does not
clear the alert list — `start_session` replaces metrics and progress but
leaves `self.alerts` untouched, so an alert accumulated before the new
session survives it. -/
theorem C8_counterexample :
    (start_session { initMonitor 0 with alerts := ["stale alert"] } 1 (some 5)).alerts ≠ [] := by
  simp [start_session]

/-- C8 (amended): within a session the alert list only grows — every
`log_request` (which runs the alert evaluation) only appends — and the
list is empty at monitor construction; `start_session`, however, leaves
the accumulated alert list unchanged rather than clearing it. -/
theorem C8_alerts_grow_and_survive_sessions
    (s : MonitorState) (r : ReqRecord) (mem : Option ℚ)
    (now : ℚ) (total_urls : Option Nat) (t0 : ℚ) :
    (∃ t, (log_request s r mem).alerts = s.alerts ++ t) ∧
    (start_session s now total_urls).alerts = s.alerts ∧
    (initMonitor t0).alerts = [] := by
  refine ⟨?_, rfl, rfl⟩
  unfold log_request
  rw [checkAlerts_eq_foldl]
  exact foldl_addAlert_append _ _

lemma log_request_metrics (s : MonitorState) (r : ReqRecord) (mem : Option ℚ) :
    (log_request s r mem).metrics = updateMetrics s.metrics r := by
  unfold log_request
  rw [checkAlerts_eq_foldl]

/-- Counterexample to C6 as stated: before `finalize` has set `end_time`,
two snapshots with no intervening record differ, because
`duration_seconds` reads the live clock. -/
theorem C6_counterexample :
    to_dict (initMetrics 0) 0 ≠ to_dict (initMetrics 0) 1 := by
  intro h
  have hd := congrArg MetricsSnapshot.duration_seconds h
  norm_num [to_dict, duration, initMetrics] at hd

/-- C6 (amended): once `finalize` has set `end_time`, `snapshot` is
idempotent absent an intervening record; before that, two snapshots
agree on every field except `duration_seconds`, which tracks the
current clock. -/
theorem C6_snapshot_idempotent_after_finalize (m : ScrapingMetrics) (now1 now2 : ℚ) :
    (∀ t, m.end_time = some t → to_dict m now1 = to_dict m now2) ∧
    { to_dict m now1 with duration_seconds := 0 } =
      { to_dict m now2 with duration_seconds := 0 } := by
  constructor
  · intro t ht
    simp [to_dict, duration, ht]
  · simp [to_dict]

/-- Witness for C6's amended theorem: a finalized metrics value
snapshotted at two different times. -/
theorem C6_witness :
    to_dict { initMetrics 0 with end_time := some 5 } 7 =
      to_dict { initMetrics 0 with end_time := some 5 } 9 :=
  (C6_snapshot_idempotent_after_finalize { initMetrics 0 with end_time := some 5 } 7 9).1 5 rfl

/-- Counterexample to C5 as stated: recording an outcome whose
response_time is absent bumps the completion count but neither the
cumulative time nor the average, so afterwards `average_response_time`
(still 2) differs from `total_processing_time / (successes + failures)`
(2 / 2 = 1). -/
theorem C5_counterexample :
    (log_request (log_request (initMonitor 0)
        { url := "http://a.com/", success := true, status_code := some 200
          response_time := some 2, error := none, content_size := some 5 } none)
        { url := "http://a.com/", success := true, status_code := some 200
          response_time := none, error := none, content_size := some 5 } none).metrics.average_response_time ≠
      (log_request (log_request (initMonitor 0)
          { url := "http://a.com/", success := true, status_code := some 200
            response_time := some 2, error := none, content_size := some 5 } none)
          { url := "http://a.com/", success := true, status_code := some 200
            response_time := none, error := none, content_size := some 5 } none).metrics.total_processing_time /
        ((((log_request (log_request (initMonitor 0)
            { url := "http://a.com/", success := true, status_code := some 200
              response_time := some 2, error := none, content_size := some 5 } none)
            { url := "http://a.com/", success := true, status_code := some 200
              response_time := none, error := none, content_size := some 5 } none).metrics.successful_requests +
          (log_request (log_request (initMonitor 0)
            { url := "http://a.com/", success := true, status_code := some 200
              response_time := some 2, error := none, content_size := some 5 } none)
            { url := "http://a.com/", success := true, status_code := some 200
              response_time := none, error := none, content_size := some 5 } none).metrics.failed_requests : Nat)) : ℚ) := by
  rw [log_request_metrics, log_request_metrics]
  norm_num [updateMetrics, truthyQ, truthyNat, truthyStr, initMonitor, initMetrics]

/-- C5 (amended): `average_response_time` equals
`total_processing_time / (successes + failures)` after every record
whose response_time is present and nonzero, and is 0 before any
completion; a record whose response_time is absent or zero leaves both
the cumulative time and the average unchanged (so for such records the
quotient invariant can lapse, the completion count having grown). -/
theorem C5_average_tracks_timed_records (s : MonitorState) (r : ReqRecord)
    (mem : Option ℚ) (t0 : ℚ) :
    (truthyQ r.response_time = true →
      (log_request s r mem).metrics.average_response_time =
        (log_request s r mem).metrics.total_processing_time /
          (((log_request s r mem).metrics.successful_requests +
            (log_request s r mem).metrics.failed_requests : Nat) : ℚ)) ∧
    (truthyQ r.response_time = false →
      (log_request s r mem).metrics.average_response_time = s.metrics.average_response_time ∧
      (log_request s r mem).metrics.total_processing_time = s.metrics.total_processing_time) ∧
    (initMonitor t0).metrics.average_response_time = 0 := by
  rw [log_request_metrics]
  refine ⟨?_, ?_, rfl⟩
  · intro ht
    unfold updateMetrics
    by_cases hs : r.success <;>
    by_cases he : truthyStr r.error <;>
    by_cases hc : truthyNat r.status_code <;>
    by_cases hb : truthyNat r.content_size <;>
    simp [hs, he, hc, hb, ht]
  · intro ht
    unfold updateMetrics
    by_cases hs : r.success <;>
    by_cases he : truthyStr r.error <;>
    by_cases hc : truthyNat r.status_code <;>
    by_cases hb : truthyNat r.content_size <;>
    simp [hs, he, hc, hb, ht]

/-- Witness for C5's amended theorem: one record carrying response time
2, one record carrying none. -/
theorem C5_witness :
    (log_request (initMonitor 0)
        { url := "http://a.com/", success := true, status_code := some 200
          response_time := some 2, error := none, content_size := some 5 }
        none).metrics.average_response_time =
      (log_request (initMonitor 0)
        { url := "http://a.com/", success := true, status_code := some 200
          response_time := some 2, error := none, content_size := some 5 }
        none).metrics.total_processing_time /
        ((((log_request (initMonitor 0)
            { url := "http://a.com/", success := true, status_code := some 200
              response_time := some 2, error := none, content_size := some 5 }
            none).metrics.successful_requests +
          (log_request (initMonitor 0)
            { url := "http://a.com/", success := true, status_code := some 200
              response_time := some 2, error := none, content_size := some 5 }
            none).metrics.failed_requests : Nat)) : ℚ) ∧
    (log_request (initMonitor 0)
        { url := "http://a.com/", success := true, status_code := some 200
          response_time := none, error := none, content_size := some 5 }
        none).metrics.average_response_time = (initMonitor 0).metrics.average_response_time := by
  have h1 := C5_average_tracks_timed_records (initMonitor 0)
    { url := "http://a.com/", success := true, status_code := some 200
      response_time := some 2, error := none, content_size := some 5 } none 0
  have h2 := C5_average_tracks_timed_records (initMonitor 0)
    { url := "http://a.com/", success := true, status_code := some 200
      response_time := none, error := none, content_size := some 5 } none 0
  exact ⟨h1.1 (by norm_num [truthyQ]), (h2.2.1 rfl).1⟩

lemma mem_addAlert_self (l : List String) (a : String) : a ∈ addAlert l a := by
  unfold addAlert
  split
  · assumption
  · simp

lemma mem_addAlert_of_mem (l : List String) (a b : String) (h : a ∈ l) : a ∈ addAlert l b := by
  unfold addAlert
  split
  · exact h
  · simp [h]

lemma mem_foldl_addAlert_of_mem :
    ∀ (msgs l : List String) (a : String), a ∈ l → a ∈ msgs.foldl addAlert l := by
  intro msgs
  induction msgs with
  | nil => intro l a h; simpa using h
  | cons m rest ih =>
    intro l a h
    rw [List.foldl_cons]
    exact ih _ a (mem_addAlert_of_mem l a m h)

lemma mem_foldl_addAlert_of_mem_msgs :
    ∀ (msgs l : List String) (a : String), a ∈ msgs → a ∈ msgs.foldl addAlert l := by
  intro msgs
  induction msgs with
  | nil => intro l a h; simp at h
  | cons m rest ih =>
    intro l a h
    rw [List.foldl_cons]
    rcases List.mem_cons.mp h with h1 | h2
    · subst h1
      exact mem_foldl_addAlert_of_mem rest _ a (mem_addAlert_self l a)
    · exact ih _ a h2

lemma foldl_addAlert_of_subset :
    ∀ (msgs l : List String), (∀ a ∈ msgs, a ∈ l) → msgs.foldl addAlert l = l := by
  intro msgs
  induction msgs with
  | nil => intro l _; rfl
  | cons m rest ih =>
    intro l h
    rw [List.foldl_cons]
    have hm : addAlert l m = l := by
      unfold addAlert
      rw [if_pos (h m (List.mem_cons_self m rest))]
    rw [hm]
    exact ih l (fun a ha => h a (List.mem_cons_of_mem m ha))

/-- C7: each alert rule breach appends its formatted message to the
alert list through `addAlert` unless an identical string is already
present: every breach message ends up in the list, a set of breaches
all of whose messages are already present appends nothing, and the
spec's scenario holds — an error-rate breach at 25.3% followed by one at
25.4% (same rule, different formatted values) produces the two distinct
alerts "High error rate: 25.3% (threshold: 20.0%)" and
"High error rate: 25.4% (threshold: 20.0%)". -/
theorem C7_alert_dedup_by_string (s : MonitorState) (mem : Option ℚ) :
    ((checkAlerts s mem).alerts = (breachMessages s mem).foldl addAlert s.alerts) ∧
    (∀ a, a ∈ breachMessages s mem → a ∈ (checkAlerts s mem).alerts) ∧
    ((∀ a ∈ breachMessages s mem, a ∈ s.alerts) → (checkAlerts s mem).alerts = s.alerts) ∧
    ((checkAlerts { checkAlerts { initMonitor 0 with metrics :=
          { initMetrics 0 with successful_requests := 747, failed_requests := 253 } } none with
        metrics := { initMetrics 0 with successful_requests := 746, failed_requests := 254 } }
      none).alerts =
      ["High error rate: 25.3% (threshold: 20.0%)",
       "High error rate: 25.4% (threshold: 20.0%)"]) ∧
    ("High error rate: 25.3% (threshold: 20.0%)" : String) ≠
      "High error rate: 25.4% (threshold: 20.0%)" := by
  refine ⟨?_, ?_, ?_, ?_, by decide⟩
  · rw [checkAlerts_eq_foldl]
  · intro a ha
    rw [checkAlerts_eq_foldl]
    exact mem_foldl_addAlert_of_mem_msgs _ _ a ha
  · intro h
    rw [checkAlerts_eq_foldl]
    exact foldl_addAlert_of_subset _ _ h
  · have hf1 : fmtFixed 1 ((253 : ℚ) / 10) = "25.3" := by
      have hn : ((253 : ℚ) / 10).num = 253 := by norm_num
      have hd : ((253 : ℚ) / 10).den = 10 := by norm_num
      simp only [fmtFixed, rndScaled, hn, hd]
      decide
    have hf2 : fmtFixed 1 ((127 : ℚ) / 5) = "25.4" := by
      have hn : ((127 : ℚ) / 5).num = 127 := by norm_num
      have hd : ((127 : ℚ) / 5).den = 5 := by norm_num
      simp only [fmtFixed, rndScaled, hn, hd]
      decide
    have hthr : fmtFixed 1 (20 : ℚ) = "20.0" := by
      have hn : (20 : ℚ).num = 20 := by norm_num
      have hd : (20 : ℚ).den = 1 := by norm_num
      simp only [fmtFixed, rndScaled, hn, hd]
      decide
    norm_num [checkAlerts, initMonitor, initMetrics, addAlert, errorRateAlert, hf1, hf2, hthr]
    decide

/-- Witness for C7: in a fresh monitor no rule breaches, so the alert
evaluation leaves the (empty) alert list unchanged. -/
theorem C7_witness :
    (checkAlerts (initMonitor 0) none).alerts = (initMonitor 0).alerts :=
  (C7_alert_dedup_by_string (initMonitor 0) none).2.2.1
    (by norm_num [breachMessages, initMonitor, initMetrics])
